import Mathlib

/-!
Verification of the loom multi-agent orchestration runtime against its
natural-language specification.  Each section shallowly embeds one Go
source file; floating-point scores are embedded as rationals, Go maps as
association lists, and external effects (LLM chat, session store,
message bus, registry) as explicit outcome parameters.
-/

namespace Loom

/-! ## Pattern recommender (pkg/patterns, LLM re-ranker source file)

Embeds `shouldInvokeLLMReRanker` and the validation / clamping tail of
`reRankPatternsWithLLM`.  The Go `float64` scores are embedded as `ℚ`;
the abstract `types.LLMProvider` interface value is embedded as
`Option LLMProvider` (with `none` standing for a nil interface).
-/

/-- The abstract LLM provider interface; the recommender only
tests it against nil, so its content is irrelevant. -/
abbrev LLMProvider : Type := Unit

/-- Modelled from the spec: `IntentCategory` is "an enumerated tag
including a distinguished `Unknown` value"; the enumeration itself is not
among the provided source files, so every non-Unknown tag is carried as a
string. -/
inductive IntentCategory : Type
  | IntentUnknown : IntentCategory
  | IntentKnown (tag : String) : IntentCategory
deriving DecidableEq, Repr

export IntentCategory (IntentUnknown IntentKnown)

/-- `scoredPattern` from the recommender: a pattern name with its
keyword-matching score. -/
structure scoredPattern : Type where
  name : String
  score : ℚ
deriving DecidableEq, Repr

/-- `shouldInvokeLLMReRanker` from the recommender source: decides whether
the LLM re-ranking step runs.  Mirrors the Go control flow: nil provider
and empty candidate list short-circuit to `false`, then the four
"aggressive triggers" are tested in order. -/
def shouldInvokeLLMReRanker (scored : List scoredPattern)
    (intent : IntentCategory) (llmProvider : Option LLMProvider) : Bool :=
  match llmProvider with
  | none => false
  | some _ =>
    match scored with
    | [] => false
    | s0 :: rest =>
      if intent = IntentUnknown then true
      else if s0.score < 7/10 then true
      else if (match rest with
               | s1 :: _ => decide (s0.score - s1.score < 1/5)
               | [] => false) then true
      else if 3 ≤ (s0 :: rest).countP (fun s => decide (3/5 < s.score)) then true
      else false

/-- The four rerank-gate conditions exactly as the specification words
them: intent is Unknown; top score below 0.70; top two scores within 0.20
of each other; three or more candidates above 0.60. -/
def gateConditionHolds (scored : List scoredPattern)
    (intent : IntentCategory) : Bool :=
  (intent = IntentUnknown : Bool) ||
  (match scored with
   | s0 :: _ => decide (s0.score < 7/10)
   | [] => false) ||
  (match scored with
   | s0 :: s1 :: _ => decide (s0.score - s1.score < 1/5)
   | _ => false) ||
  decide (3 ≤ scored.countP (fun s => decide (3/5 < s.score)))

/-- `reRankingResult`: the JSON object expected back from the LLM. -/
structure reRankingResult : Type where
  selectedPattern : String
  confidence : ℚ
  reasoning : String
deriving DecidableEq, Repr

/-- The error return values of `reRankPatternsWithLLM`; the Go code builds
them with `fmt.Errorf`, here only the kind (and the offending name) is
kept. -/
inductive RerankError : Type
  | providerNil : RerankError
  | noCandidates : RerankError
  | llmOrParseFailed : RerankError
  | selectedNotInCandidates (name : String) : RerankError
deriving DecidableEq, Repr

/-- `reRankPatternsWithLLM` from the recommender source.  The prompt
construction, the chat call, the code-fence stripping and the JSON
unmarshal are collapsed into the `llmOutcome` parameter (`none` stands for
a chat error or a parse failure, `some r` for a successfully parsed
`reRankingResult`); everything from the candidate-membership validation
on is embedded statement by statement.  The triple mirrors the Go return
`(string, float64, error)`. -/
def reRankPatternsWithLLM (llmProvider : Option LLMProvider)
    (candidates : List scoredPattern) (llmOutcome : Option reRankingResult) :
    String × ℚ × Option RerankError :=
  match llmProvider with
  | none => ("", 0, some RerankError.providerNil)
  | some _ =>
    match candidates with
    | [] => ("", 0, some RerankError.noCandidates)
    | c0 :: rest =>
      match llmOutcome with
      | none => ("", 0, some RerankError.llmOrParseFailed)
      | some result =>
        if (c0 :: rest).any (fun c => c.name = result.selectedPattern) then
          let conf1 := if result.confidence < 0 then 0 else result.confidence
          let conf2 := if 1 < conf1 then 1 else conf1
          (result.selectedPattern, conf2, none)
        else
          (c0.name, c0.score,
            some (RerankError.selectedNotInCandidates result.selectedPattern))

/-! ## Spawn manager (pkg/server/spawn_agent.go)

The mutable state of `MultiAgentServer` relevant to spawning is embedded
as `ServerState`: the `spawnedAgents` Go map becomes an association list
with overwrite-on-insert semantics, the subscription table of the bus
becomes a list of `(agent id, topic)` pairs, and a fired cancellation
context is recorded by the child session id in `canceledSessions`.
External collaborators (agent registry, session store, session-id
generation, per-topic subscribe outcomes) are passed in as `SpawnExt`.
Timestamps (`spawnedAt`, `CreatedAt`, `UpdatedAt`), the loaded agent
value and the log statements are not modelled: no claim mentions them.
-/

/-- `builtin.SpawnSubAgentRequest`: parameters for spawning a sub-agent.
The Go `map[string]string` metadata is an association list. -/
structure SpawnSubAgentRequest : Type where
  parentSessionID : String
  parentAgentID : String
  agentID : String
  workflowID : String
  initialMessage : String
  autoSubscribe : List String
  metadata : List (String × String)
deriving DecidableEq, Repr

/-- `builtin.SpawnSubAgentResponse`: the result of spawning a sub-agent.
Its Go doc lists "spawned", "running", "error" as status values. -/
structure SpawnSubAgentResponse : Type where
  subAgentID : String
  sessionID : String
  status : String
  subscribedTopics : List String
deriving DecidableEq, Repr

/-- `spawnedAgentContext`: the spawn-table entry tracked per child
(cancellation handle, timestamp and loaded agent value omitted; the
firing of the handle is recorded in `ServerState.canceledSessions` instead). -/
structure spawnedAgentContext : Type where
  parentSessionID : String
  parentAgentID : String
  subAgentID : String
  subSessionID : String
  workflowID : String
  subscriptions : List String
  metadata : List (String × String)
deriving DecidableEq, Repr

/-- The spawning-relevant state of `MultiAgentServer`.  `registryAvailable`
and `busAvailable` embed the nil tests on `s.registry` and
`s.messageBus`. -/
structure ServerState : Type where
  spawnedAgents : List (String × spawnedAgentContext)
  busSubscriptions : List (String × String)
  canceledSessions : List String
  registryAvailable : Bool
  busAvailable : Bool
deriving DecidableEq, Repr

/-- Outcomes of the external collaborators consulted during one
`SpawnSubAgent` call: whether `getOrLoadAgent` succeeds, whether
`sessionStore.SaveSession` succeeds, the id `GenerateSessionID` produces,
and which topics `messageBus.Subscribe` accepts. -/
structure SpawnExt : Type where
  loadAgentOk : Bool
  saveSessionOk : Bool
  newSessionID : String
  subscribeOk : String → Bool

/-- The error returns of `SpawnSubAgent`; the Go code builds them with
`fmt.Errorf`, here only the kind (plus the counts interpolated into the
spawn-limit message) is kept. -/
inductive SpawnError : Type
  | nilRequest : SpawnError
  | parentSessionRequired : SpawnError
  | agentIDRequired : SpawnError
  | registryNotConfigured : SpawnError
  | spawnLimitReached (count maxAllowed : ℕ) : SpawnError
  | loadAgentFailed : SpawnError
  | saveSessionFailed : SpawnError
deriving DecidableEq, Repr

/-- Go map assignment `m[k] = v`: any existing binding of `k` is
replaced. -/
def mapSet (m : List (String × spawnedAgentContext)) (k : String)
    (v : spawnedAgentContext) : List (String × spawnedAgentContext) :=
  (k, v) :: m.filter (fun e => ¬ e.1 = k)

/-- Go map assignment on a `map[string]string`. -/
def mdSet (m : List (String × String)) (k v : String) :
    List (String × String) :=
  (k, v) :: m.filter (fun e => ¬ e.1 = k)

/-- `maxSpawnsPerParent` from `SpawnSubAgent` (a local constant in the Go
code, with a TODO to make it configurable). -/
def maxSpawnsPerParent : ℕ := 10

/-- `countSpawnedAgentsByParent`: how many tracked children a parent
session has. -/
def countSpawnedAgentsByParent (st : ServerState)
    (parentSessionID : String) : ℕ :=
  st.spawnedAgents.countP (fun e => e.2.parentSessionID = parentSessionID)

/-- `MultiAgentServer.SpawnSubAgent`.  Returns the state after the call
together with the Go `(resp, err)` pair, following the source order:
nil-request and field validation, registry check, spawn-limit check,
sub-agent id construction, agent load, session save, auto-subscribe loop
(failures skipped via `continue`), spawn-table insertion, metadata
storage of the initial message, and the `"spawned"` response.  The
monitor goroutine it starts is modelled separately by
`cleanupSpawnedAgent` (which the monitor calls). -/
def SpawnSubAgent (st : ServerState) (req : Option SpawnSubAgentRequest)
    (ext : SpawnExt) : ServerState × Except SpawnError SpawnSubAgentResponse :=
  match req with
  | none => (st, Except.error SpawnError.nilRequest)
  | some req =>
    if req.parentSessionID = "" then
      (st, Except.error SpawnError.parentSessionRequired)
    else if req.agentID = "" then
      (st, Except.error SpawnError.agentIDRequired)
    else if ¬ st.registryAvailable then
      (st, Except.error SpawnError.registryNotConfigured)
    else
      let existingSpawns := countSpawnedAgentsByParent st req.parentSessionID
      if maxSpawnsPerParent ≤ existingSpawns then
        (st, Except.error (SpawnError.spawnLimitReached existingSpawns maxSpawnsPerParent))
      else
        let subAgentID :=
          if req.workflowID = "" then req.agentID
          else req.workflowID ++ ":" ++ req.agentID
        if ¬ ext.loadAgentOk then
          (st, Except.error SpawnError.loadAgentFailed)
        else
          let sessionID := ext.newSessionID
          if ¬ ext.saveSessionOk then
            (st, Except.error SpawnError.saveSessionFailed)
          else
            let subscribedTopics :=
              if st.busAvailable then req.autoSubscribe.filter ext.subscribeOk
              else []
            let metadata :=
              if req.initialMessage = "" then req.metadata
              else mdSet req.metadata "initial_message" req.initialMessage
            let spawned : spawnedAgentContext :=
              { parentSessionID := req.parentSessionID
                parentAgentID := req.parentAgentID
                subAgentID := subAgentID
                subSessionID := sessionID
                workflowID := req.workflowID
                subscriptions := subscribedTopics
                metadata := metadata }
            let st' : ServerState :=
              { st with
                spawnedAgents := mapSet st.spawnedAgents sessionID spawned
                busSubscriptions :=
                  st.busSubscriptions ++ subscribedTopics.map (fun t => (subAgentID, t)) }
            (st', Except.ok
              { subAgentID := subAgentID
                sessionID := sessionID
                status := "spawned"
                subscribedTopics := subscribedTopics })

/-- `cleanupSpawnedAgent`: if the session id is tracked, remove it from
the spawn table, cancel the child context, and unsubscribe the child
agent from every recorded topic; if it is not tracked, return
immediately.  The `reason` argument is only logged in Go. -/
def cleanupSpawnedAgent (st : ServerState) (sessionID reason : String) :
    ServerState :=
  match st.spawnedAgents.find? (fun e => e.1 = sessionID) with
  | none => st
  | some entry =>
    let spawned := entry.2
    let st1 : ServerState :=
      { st with
        spawnedAgents := st.spawnedAgents.filter (fun e => ¬ e.1 = sessionID)
        canceledSessions := sessionID :: st.canceledSessions }
    if st.busAvailable then
      { st1 with
        busSubscriptions := st1.busSubscriptions.filter
          (fun sub => ¬ (sub.1 = spawned.subAgentID ∧ sub.2 ∈ spawned.subscriptions)) }
    else st1

/-! ## spawn_agent builtin tool (pkg/shuttle/builtin/spawn_agent.go)

`SpawnAgentTool.Execute` receives a `map[string]interface{}` of
parameters; the dynamic `interface{}` values are embedded as `ParamValue`
(`other` covers every value that is neither a string, an array nor a
string-keyed object, so that Go type assertions can fail faithfully).
The handler of the tool is `SpawnSubAgent` of the server, so the embedding
calls the `SpawnSubAgent` definition above; `handlerAvailable` embeds the
nil test on `t.handler`.  `ExecutionTimeMs` (wall-clock time) is not
modelled. -/

/-- A dynamically typed parameter value (`interface{}`). -/
inductive ParamValue : Type
  | str (s : String) : ParamValue
  | arr (xs : List ParamValue) : ParamValue
  | obj (fields : List (String × ParamValue)) : ParamValue
  | other : ParamValue
deriving Repr

/-- Map lookup `params[k]` on the parameter map (`none` = key absent,
matching a nil `interface{}`). -/
def getParam (params : List (String × ParamValue)) (k : String) :
    Option ParamValue :=
  (params.find? (fun e => e.1 = k)).map (fun e => e.2)

/-- The Go type assertion `v.(string)` applied to a looked-up parameter:
succeeds only when the key is present and holds a string. -/
def asString (v : Option ParamValue) : Option String :=
  match v with
  | some (ParamValue.str s) => some s
  | _ => none

/-- `shuttle.Error`: the structured error carried by a failed tool
result. -/
structure ShuttleError : Type where
  code : String
  message : String
  suggestion : String
  retryable : Bool
deriving DecidableEq, Repr

/-- `shuttle.Result` as built by `SpawnAgentTool.Execute`: either a
failure with a structured error, or a success whose data holds the spawn
response fields. -/
structure ShuttleResult : Type where
  success : Bool
  error : Option ShuttleError
  data : Option SpawnSubAgentResponse
deriving DecidableEq, Repr

/-- Everything observable about one `SpawnAgentTool.Execute` call: the
`shuttle.Result`, the second Go return value (the `error`), the server
state afterwards, and the request passed to the handler (`none` when the
handler was never invoked). -/
structure ExecOutcome : Type where
  result : ShuttleResult
  goError : Option String
  state : ServerState
  issuedRequest : Option SpawnSubAgentRequest
deriving Repr

/-- The optional-parameter extraction of `SpawnAgentTool.Execute`:
`workflow_id` and `initial_message` default to the empty string when
absent or not a string; `auto_subscribe` keeps the string elements of an
array value; `metadata` keeps the string-valued fields of an object
value. -/
def buildSpawnRequest (parentSession parentAgentID agentID : String)
    (params : List (String × ParamValue)) : SpawnSubAgentRequest :=
  { parentSessionID := parentSession
    parentAgentID := parentAgentID
    agentID := agentID
    workflowID := (asString (getParam params "workflow_id")).getD ""
    initialMessage := (asString (getParam params "initial_message")).getD ""
    autoSubscribe :=
      match getParam params "auto_subscribe" with
      | some (ParamValue.arr xs) =>
        xs.filterMap (fun v =>
          match v with
          | ParamValue.str s => some s
          | _ => none)
      | _ => []
    metadata :=
      match getParam params "metadata" with
      | some (ParamValue.obj fields) =>
        fields.filterMap (fun e =>
          match e.2 with
          | ParamValue.str s => some (e.1, s)
          | _ => none)
      | _ => [] }

/-- The tail of `SpawnAgentTool.Execute` after the handler call
`resp, err := t.handler.SpawnSubAgent(ctx, req)`: a handler error is
wrapped in the retryable structured `SPAWN_FAILED` error; a success is
wrapped in a successful result carrying the response fields.  Both paths
return a nil Go error. -/
def wrapSpawnResult (st' : ServerState) (req : SpawnSubAgentRequest)
    (r : Except SpawnError SpawnSubAgentResponse) : ExecOutcome :=
  match r with
  | Except.error _ =>
    { result :=
        { success := false
          error := some
            { code := "SPAWN_FAILED"
              message := "Failed to spawn agent"
              suggestion := "Check if agent config exists and server has capacity"
              retryable := true }
          data := none }
      goError := none
      state := st'
      issuedRequest := some req }
  | Except.ok resp =>
    { result := { success := true, error := none, data := some resp }
      goError := none
      state := st'
      issuedRequest := some req }

/-- `SpawnAgentTool.Execute`: validates the handler and `agent_id`,
extracts the optional parameters with Go type-assertion semantics,
builds the `SpawnSubAgentRequest`, invokes the handler
(`SpawnSubAgent`), and wraps every failure in a structured
`shuttle.Error` while always returning a nil Go error.  String
interpolation of the wrapped handler error into `Message` is collapsed
to the constant prefix. -/
def SpawnAgentToolExecute (handlerAvailable : Bool)
    (parentSession parentAgentID : String) (st : ServerState)
    (ext : SpawnExt) (params : List (String × ParamValue)) : ExecOutcome :=
  if ¬ handlerAvailable then
    { result :=
        { success := false
          error := some
            { code := "SPAWN_NOT_AVAILABLE"
              message := "Agent spawning not configured for this server"
              suggestion := "spawn_agent requires MultiAgentServer with agent registry"
              retryable := false }
          data := none }
      goError := none
      state := st
      issuedRequest := none }
  else
    match asString (getParam params "agent_id") with
    | none =>
      { result :=
          { success := false
            error := some
              { code := "INVALID_AGENT_ID"
                message := "agent_id must be a non-empty string"
                suggestion := "Provide agent_id like a fighter or analyst id"
                retryable := false }
            data := none }
        goError := none
        state := st
        issuedRequest := none }
    | some agentID =>
      if agentID = "" then
        { result :=
            { success := false
              error := some
                { code := "INVALID_AGENT_ID"
                  message := "agent_id must be a non-empty string"
                  suggestion := "Provide agent_id like a fighter or analyst id"
                  retryable := false }
              data := none }
          goError := none
          state := st
          issuedRequest := none }
      else
        let req := buildSpawnRequest parentSession parentAgentID agentID params
        let outcome := SpawnSubAgent st (some req) ext
        wrapSpawnResult outcome.1 req outcome.2

/-! ## Data-directory resolution (pkg/config/paths.go)

`GetLoomDataDir` reads `LOOM_DATA_DIR` (the empty string embeds an unset
variable, exactly the Go `os.Getenv` behavior), expands a `~/` prefix to
the home directory and normalizes relative paths against the working
directory.  `os.UserHomeDir` is embedded as `Option String` (`none` = the
error case) and `os.Getwd` as the `cwd` argument.  `filepath.Clean` is
implemented by the standard element-stack algorithm on `/`-separated
components. -/

/-- `filepath.IsAbs` for Unix paths: non-empty and starting with a
slash. -/
def isAbs (path : String) : Bool :=
  match path.data with
  | [] => false
  | c :: _ => c = '/'

/-- `strings.HasPrefix(path, tilde-slash)`. -/
def hasTildeSlash (path : String) : Bool :=
  match path.data with
  | c0 :: c1 :: _ => c0 = '~' ∧ c1 = '/'
  | _ => false

/-- `strings.Join`: concatenate the elements with the separator between
consecutive ones. -/
def stringsJoin (sep : String) : List String → String
  | [] => ""
  | [x] => x
  | x :: y :: rest => x ++ sep ++ stringsJoin sep (y :: rest)

/-- One step of the element stack of `filepath.Clean`: empty and dot elements
are skipped, dot-dot pops a previous element (or is kept at the front of
a relative path, or dropped at the root of an absolute one), anything
else is pushed. -/
def cleanStep (rooted : Bool) (acc : List String) (part : String) :
    List String :=
  if part = "" ∨ part = "." then acc
  else if part = ".." then
    match acc with
    | [] => if rooted then [] else [".."]
    | p :: rest => if p = ".." then ".." :: p :: rest else rest
  else part :: acc

/-- `filepath.Clean` for Unix paths. -/
def filepathClean (path : String) : String :=
  let rooted := isAbs path
  let stack := ((path.splitOn "/").foldl (cleanStep rooted) []).reverse
  if rooted then
    match stack with
    | [] => "/"
    | s => "/" ++ stringsJoin "/" s
  else
    match stack with
    | [] => "."
    | s => stringsJoin "/" s

/-- `filepath.Join`: drop empty elements, join the rest with slashes and
clean the result (empty when every element is empty). -/
def filepathJoin (elems : List String) : String :=
  match elems.filter (fun e => ¬ e = "") with
  | [] => ""
  | ne => filepathClean (stringsJoin "/" ne)

/-- `filepath.Abs`: an absolute path is cleaned, a relative one is joined
onto the working directory. -/
def filepathAbs (cwd path : String) : String :=
  if isAbs path then filepathClean path else filepathJoin [cwd, path]

/-- `expandPath` from paths.go: expand a leading `~/` to the home
directory (returning the path unchanged when the home directory is
unavailable), otherwise make the path absolute (the `filepath.Abs` error
branch cannot arise here since the working directory is given). -/
def expandPath (home : Option String) (cwd path : String) : String :=
  if hasTildeSlash path then
    match home with
    | none => path
    | some h => filepathJoin [h, path.drop 2]
  else
    filepathAbs cwd path

/-- `GetLoomDataDir`: `LOOM_DATA_DIR` (expanded) when set and non-empty,
otherwise the home directory joined with `.loom`, falling back to the
relative `.loom` when the home directory is unavailable. -/
def GetLoomDataDir (env : String) (home : Option String) (cwd : String) :
    String :=
  if ¬ env = "" then expandPath home cwd env
  else
    match home with
    | none => ".loom"
    | some h => filepathJoin [h, ".loom"]

/-! ## LLM concurrency semaphore (spec-modelled)

Modelled from the spec: the pattern-executor sources
(`pkg/orchestration/fork_join_executor.go` and friends) are not among the
provided files; only SEMAPHORE-VERIFICATION.md quotes the fork-join
branch acquire / chat / deferred-release discipline, and §4.1 of the
spec requires every LLM chat invocation from a pattern branch to acquire
a slot before the call and release it on every exit path (success, error,
cancellation).  Branches are interchangeable for the counting property,
so the global state records how many branches sit in each phase of that
discipline; one transition moves one branch between adjacent phases, and
the acquire transition is guarded by the channel capacity (the buffered
channel `make(chan struct\x7b\x7d, limit)` accepts a send only while
fewer than `limit` slots are held).  A branch holds a slot exactly while
it is in phase `holding` or `chatting`; `chatting` branches are the LLM
chat calls in flight.  Every exit path (success, error, cancellation)
ends the chat and then releases, so release happens only from
`holding`. -/

/-- Counts of pattern branches in each phase of the semaphore
discipline: not yet requesting, waiting on the channel send, holding a
slot around the chat call, inside the chat call, and finished (slot
released). -/
structure SemState : Type where
  idleN : ℕ
  waitingN : ℕ
  holdingN : ℕ
  chattingN : ℕ
  doneN : ℕ
deriving DecidableEq, Repr

/-- Slots currently held: branches between their channel send and their
deferred receive. -/
def SemState.slotsHeld (s : SemState) : ℕ :=
  s.holdingN + s.chattingN

/-- One interleaving step of the modelled executor branches.  `acquire`
is the buffered-channel send and is enabled only below capacity;
`beginChat` / `endChat` bracket the LLM call; `release` is the deferred
receive, reached on every exit path. -/
inductive SemStep (cap : ℕ) : SemState → SemState → Prop
  | request (i w h c d : ℕ) :
      SemStep cap ⟨i + 1, w, h, c, d⟩ ⟨i, w + 1, h, c, d⟩
  | acquire (i w h c d : ℕ) :
      h + c < cap →
      SemStep cap ⟨i, w + 1, h, c, d⟩ ⟨i, w, h + 1, c, d⟩
  | beginChat (i w h c d : ℕ) :
      SemStep cap ⟨i, w, h + 1, c, d⟩ ⟨i, w, h, c + 1, d⟩
  | endChat (i w h c d : ℕ) :
      SemStep cap ⟨i, w, h, c + 1, d⟩ ⟨i, w, h + 1, c, d⟩
  | release (i w h c d : ℕ) :
      SemStep cap ⟨i, w, h + 1, c, d⟩ ⟨i, w, h, c, d + 1⟩

/-- States reachable from a start of `n` idle branches (any number of
simultaneous pattern executions contribute their branches to `n`; the
semaphore is shared). -/
inductive SemReachable (cap : ℕ) : SemState → Prop
  | init (n : ℕ) : SemReachable cap ⟨n, 0, 0, 0, 0⟩
  | step {s s' : SemState} : SemReachable cap s → SemStep cap s s' →
      SemReachable cap s'

/-! ## Theorems -/

/-- C1 counterexample: with an empty scored-pattern list, a present LLM
provider and the Unknown intent, the first gate condition of the claim
(intent is Unknown) holds, yet `shouldInvokeLLMReRanker` returns `false`
rather than the `true` the claim demands for every list of scored
patterns. -/
theorem c1_counterexample :
    gateConditionHolds [] IntentUnknown = true ∧
    shouldInvokeLLMReRanker [] IntentUnknown (some ()) = false := by
  exact ⟨rfl, rfl⟩

/-- C1 (amended): whenever an LLM provider is configured and the scored
list is non-empty, `shouldInvokeLLMReRanker` returns true exactly when
one of the four gate conditions holds (intent Unknown; top score below
0.70; top two scores within 0.20; three or more candidates above 0.60);
with a nil provider or an empty list it returns false, skipping the
rerank. -/
theorem shouldInvokeLLMReRanker_iff_gate (scored : List scoredPattern)
    (intent : IntentCategory) (llmProvider : Option LLMProvider) :
    shouldInvokeLLMReRanker scored intent llmProvider =
      (llmProvider.isSome && !scored.isEmpty &&
        gateConditionHolds scored intent) := by
  cases llmProvider with
  | none => rfl
  | some _ =>
    cases scored with
    | nil => rfl
    | cons s0 rest =>
      show shouldInvokeLLMReRanker (s0 :: rest) intent (some ()) =
        gateConditionHolds (s0 :: rest) intent
      by_cases h1 : intent = IntentUnknown
      · simp [shouldInvokeLLMReRanker, gateConditionHolds, h1]
      · by_cases h2 : s0.score < 7/10
        · simp [shouldInvokeLLMReRanker, gateConditionHolds, h1, h2]
        · cases rest with
          | nil =>
            by_cases h4 : 3 ≤ List.countP (fun s => decide (3/5 < s.score)) [s0]
            · simp [shouldInvokeLLMReRanker, gateConditionHolds, h1, h2, h4]
            · simp [shouldInvokeLLMReRanker, gateConditionHolds, h1, h2, h4]
          | cons s1 tail =>
            by_cases h3 : s0.score - s1.score < 1/5
            · simp [shouldInvokeLLMReRanker, gateConditionHolds, h1, h2, h3]
            · by_cases h4 : 3 ≤ List.countP (fun s => decide (3/5 < s.score))
                  (s0 :: s1 :: tail)
              · simp [shouldInvokeLLMReRanker, gateConditionHolds, h1, h2, h3, h4]
              · simp [shouldInvokeLLMReRanker, gateConditionHolds, h1, h2, h3, h4]

/-- C3: for a non-empty candidate list and a parsed LLM response, the
pattern name `reRankPatternsWithLLM` returns without an error belongs to
the candidate set; and when the pattern the LLM selected is not among the
candidates, the function returns the name of the first (top keyword) candidate
together with a surfaced warning rather than the out-of-set name. -/
theorem reRank_selected_in_candidates (candidates : List scoredPattern)
    (llmOutcome : Option reRankingResult) (h : candidates ≠ []) :
    ((reRankPatternsWithLLM (some ()) candidates llmOutcome).2.2 = none →
      (reRankPatternsWithLLM (some ()) candidates llmOutcome).1 ∈
        candidates.map (fun c => c.name)) ∧
    (∀ res : reRankingResult, llmOutcome = some res →
      res.selectedPattern ∉ candidates.map (fun c => c.name) →
      (reRankPatternsWithLLM (some ()) candidates llmOutcome).1 =
          (candidates.head h).name ∧
        (reRankPatternsWithLLM (some ()) candidates llmOutcome).2.2 =
          some (RerankError.selectedNotInCandidates res.selectedPattern)) := by
  cases candidates with
  | nil => exact absurd rfl h
  | cons c0 rest =>
    cases llmOutcome with
    | none =>
      refine ⟨fun hnone => ?_, fun res hres => ?_⟩
      · exact absurd hnone (by simp [reRankPatternsWithLLM])
      · exact absurd hres (by simp)
    | some res =>
      by_cases hmem : (c0 :: rest).any (fun c => c.name = res.selectedPattern)
      · refine ⟨fun _ => ?_, fun res' hres' hnotin => ?_⟩
        · simp only [reRankPatternsWithLLM, hmem, if_true]
          simp only [List.any_eq_true, decide_eq_true_eq] at hmem
          obtain ⟨c, hc, hcname⟩ := hmem
          exact List.mem_map.mpr ⟨c, hc, hcname⟩
        · cases hres'
          exact absurd (by
            simp only [List.any_eq_true, decide_eq_true_eq] at hmem
            obtain ⟨c, hc, hcname⟩ := hmem
            exact List.mem_map.mpr ⟨c, hc, hcname⟩) hnotin
      · refine ⟨fun hnone => ?_, fun res' hres' _ => ?_⟩
        · exact absurd hnone (by simp [reRankPatternsWithLLM, hmem])
        · cases hres'
          constructor
          · simp [reRankPatternsWithLLM, hmem]
          · simp [reRankPatternsWithLLM, hmem]

/-- C3 witness: with candidates named a and b and an LLM response
selecting the out-of-set name z, the function returns a with a
surfaced warning. -/
theorem reRank_selected_in_candidates_witness :
    (reRankPatternsWithLLM (some ())
        [⟨"a", 9/10⟩, ⟨"b", 1/2⟩]
        (some ⟨"z", 4/5, "r"⟩)).1 = "a" ∧
    (reRankPatternsWithLLM (some ())
        [⟨"a", 9/10⟩, ⟨"b", 1/2⟩]
        (some ⟨"z", 4/5, "r"⟩)).2.2 =
      some (RerankError.selectedNotInCandidates "z") :=
  (reRank_selected_in_candidates [⟨"a", 9/10⟩, ⟨"b", 1/2⟩]
      (some ⟨"z", 4/5, "r"⟩) (by simp)).2
    ⟨"z", 4/5, "r"⟩ rfl (by decide)

/-- C8: when the parsed LLM response names an offered candidate, the
confidence `reRankPatternsWithLLM` returns lies in the interval from 0
to 1: a parsed confidence below 0 is clamped to 0 and one above 1 is
clamped to 1. -/
theorem reRank_confidence_clamped (candidates : List scoredPattern)
    (res : reRankingResult)
    (hmem : res.selectedPattern ∈ candidates.map (fun c => c.name)) :
    0 ≤ (reRankPatternsWithLLM (some ()) candidates (some res)).2.1 ∧
    (reRankPatternsWithLLM (some ()) candidates (some res)).2.1 ≤ 1 ∧
    (res.confidence < 0 →
      (reRankPatternsWithLLM (some ()) candidates (some res)).2.1 = 0) ∧
    (1 < res.confidence →
      (reRankPatternsWithLLM (some ()) candidates (some res)).2.1 = 1) := by
  cases candidates with
  | nil => simp at hmem
  | cons c0 rest =>
    have hany : (c0 :: rest).any (fun c => c.name = res.selectedPattern) := by
      simp only [List.any_eq_true, decide_eq_true_eq]
      obtain ⟨c, hc, hcname⟩ := List.mem_map.mp hmem
      exact ⟨c, hc, hcname⟩
    have hval : (reRankPatternsWithLLM (some ()) (c0 :: rest) (some res)).2.1 =
        (if 1 < (if res.confidence < 0 then (0 : ℚ) else res.confidence) then 1
         else (if res.confidence < 0 then (0 : ℚ) else res.confidence)) := by
      simp [reRankPatternsWithLLM, hany]
    rw [hval]
    refine ⟨?_, ?_, fun h => ?_, fun h => ?_⟩ <;> split_ifs <;> linarith

/-- C8 witness: a response selecting candidate a with confidence 3/2 is
clamped to confidence 1. -/
theorem reRank_confidence_clamped_witness :
    (reRankPatternsWithLLM (some ()) [⟨"a", 9/10⟩]
        (some ⟨"a", 3/2, "r"⟩)).2.1 = 1 :=
  (reRank_confidence_clamped [⟨"a", 9/10⟩] ⟨"a", 3/2, "r"⟩
      (by decide)).2.2.2 (by norm_num)

/-- Counting a predicate over a filtered list never exceeds the count
over the original list. -/
theorem countP_filter_le {α : Type} (m : List α) (p q : α → Bool) :
    (m.filter q).countP p ≤ m.countP p := by
  rw [List.countP_filter]
  exact List.countP_mono_left (fun a _ h => by
    simp only [Bool.and_eq_true] at h
    exact h.1)

/-- A `SpawnSubAgent` call either leaves the server state untouched (all
failure branches) or was below the spawn limit and extends the spawn
table with one entry whose parent is the request's parent. -/
theorem SpawnSubAgent_state_shape (st : ServerState)
    (req : SpawnSubAgentRequest) (ext : SpawnExt) :
    (SpawnSubAgent st (some req) ext).1 = st ∨
    (¬ maxSpawnsPerParent ≤ countSpawnedAgentsByParent st req.parentSessionID ∧
      ∃ v : spawnedAgentContext, v.parentSessionID = req.parentSessionID ∧
        (SpawnSubAgent st (some req) ext).1.spawnedAgents =
          mapSet st.spawnedAgents ext.newSessionID v) := by
  simp only [SpawnSubAgent]
  split_ifs <;>
    first
      | exact Or.inl rfl
      | exact Or.inr ⟨by assumption, ⟨_, rfl, rfl⟩⟩

/-- C2: a spawn request whose parent already has `maxSpawnsPerParent`
(10) tracked children fails with the spawn-limit error and leaves the
spawn table unchanged; for every parent with at most 10 tracked
children, the state after the call still has at most 10; and the cleanup
operation never increases a parent count, so the bound holds after every
operation. -/
theorem SpawnSubAgent_spawn_limit (st : ServerState)
    (req : SpawnSubAgentRequest) (ext : SpawnExt)
    (hpar : ¬ req.parentSessionID = "") (hag : ¬ req.agentID = "")
    (hreg : st.registryAvailable = true) :
    (maxSpawnsPerParent ≤ countSpawnedAgentsByParent st req.parentSessionID →
      SpawnSubAgent st (some req) ext =
        (st, Except.error (SpawnError.spawnLimitReached
          (countSpawnedAgentsByParent st req.parentSessionID)
          maxSpawnsPerParent))) ∧
    (∀ P : String, countSpawnedAgentsByParent st P ≤ maxSpawnsPerParent →
      countSpawnedAgentsByParent (SpawnSubAgent st (some req) ext).1 P ≤
        maxSpawnsPerParent) ∧
    (∀ (P sid r : String),
      countSpawnedAgentsByParent (cleanupSpawnedAgent st sid r) P ≤
        countSpawnedAgentsByParent st P) := by
  refine ⟨?_, ?_, ?_⟩
  · intro hlim
    simp [SpawnSubAgent, hpar, hag, hreg, hlim]
  · intro P hP
    rcases SpawnSubAgent_state_shape st req ext with hsame | ⟨hlim, v, hv, hmap⟩
    · rw [hsame]; exact hP
    · unfold countSpawnedAgentsByParent at *
      rw [hmap]
      unfold mapSet
      rw [List.countP_cons]
      have hfle : ((st.spawnedAgents.filter
            (fun e => ¬ e.1 = ext.newSessionID)).countP
          (fun e => e.2.parentSessionID = P)) ≤
          st.spawnedAgents.countP (fun e => e.2.parentSessionID = P) :=
        countP_filter_le _ _ _
      by_cases hPv : v.parentSessionID = P
      · have hreqP : req.parentSessionID = P := by rw [← hv]; exact hPv
        rw [hreqP] at hlim
        rw [if_pos (show (decide (v.parentSessionID = P)) = true by
          simp [hPv])]
        omega
      · rw [if_neg (show ¬ (decide (v.parentSessionID = P)) = true by
          simp [hPv])]
        omega
  · intro P sid r
    unfold cleanupSpawnedAgent countSpawnedAgentsByParent
    cases hfind : st.spawnedAgents.find? (fun e => e.1 = sid) with
    | none => simp only [hfind]; exact le_refl _
    | some entry =>
      simp only [hfind]
      by_cases hb : st.busAvailable = true
      · rw [if_pos hb]
        exact countP_filter_le _ _ _
      · rw [if_neg hb]
        exact countP_filter_le _ _ _

/-- C2 witness data: a parent session p with ten tracked children. -/
def wCtx : spawnedAgentContext :=
  { parentSessionID := "p", parentAgentID := "pa", subAgentID := "a"
    subSessionID := "s0", workflowID := "", subscriptions := []
    metadata := [] }

/-- C2 witness data: a server state whose spawn table holds ten children
of parent p. -/
def wFullState : ServerState :=
  { spawnedAgents := List.replicate 10 ("s0", wCtx)
    busSubscriptions := [], canceledSessions := []
    registryAvailable := true, busAvailable := true }

/-- Witness data: an empty server state. -/
def wEmptyState : ServerState :=
  { spawnedAgents := [], busSubscriptions := [], canceledSessions := []
    registryAvailable := true, busAvailable := true }

/-- Witness data: a plain spawn request from parent p. -/
def wReq : SpawnSubAgentRequest :=
  { parentSessionID := "p", parentAgentID := "pa", agentID := "child"
    workflowID := "", initialMessage := "", autoSubscribe := []
    metadata := [] }

/-- Witness data: external outcomes where everything succeeds. -/
def wExt : SpawnExt :=
  { loadAgentOk := true, saveSessionOk := true, newSessionID := "sid9"
    subscribeOk := fun _ => true }

/-- C2 witness: spawning an eleventh child of parent p fails with the
spawn-limit error and leaves the state unchanged. -/
theorem SpawnSubAgent_spawn_limit_witness :
    SpawnSubAgent wFullState (some wReq) wExt =
      (wFullState, Except.error (SpawnError.spawnLimitReached
        (countSpawnedAgentsByParent wFullState "p") maxSpawnsPerParent)) :=
  (SpawnSubAgent_spawn_limit wFullState wReq wExt (by decide) (by decide)
    (by decide)).1 (by decide)

/-- C5: on a successful spawn with the message bus configured, the
response lists exactly the auto-subscribe topics whose subscription
succeeded, in order; a topic whose subscription failed is absent, and
the spawn itself still succeeds. -/
theorem SpawnSubAgent_autoSubscribe_bestEffort (st : ServerState)
    (req : SpawnSubAgentRequest) (ext : SpawnExt)
    (hpar : ¬ req.parentSessionID = "") (hag : ¬ req.agentID = "")
    (hreg : st.registryAvailable = true) (hbus : st.busAvailable = true)
    (hlim : countSpawnedAgentsByParent st req.parentSessionID <
      maxSpawnsPerParent)
    (hload : ext.loadAgentOk = true) (hsave : ext.saveSessionOk = true)
    (hsubs : ¬ req.autoSubscribe = []) :
    ∃ resp : SpawnSubAgentResponse,
      (SpawnSubAgent st (some req) ext).2 = Except.ok resp ∧
      resp.subscribedTopics = req.autoSubscribe.filter ext.subscribeOk ∧
      ∀ t : String, ext.subscribeOk t = false → t ∉ resp.subscribedTopics := by
  have hnl : ¬ maxSpawnsPerParent ≤
      countSpawnedAgentsByParent st req.parentSessionID := not_le.mpr hlim
  have hok : (SpawnSubAgent st (some req) ext).2 = Except.ok
      { subAgentID :=
          if req.workflowID = "" then req.agentID
          else req.workflowID ++ ":" ++ req.agentID
        sessionID := ext.newSessionID
        status := "spawned"
        subscribedTopics := req.autoSubscribe.filter ext.subscribeOk } := by
    simp [SpawnSubAgent, hpar, hag, hreg, hnl, hload, hsave, hbus]
  refine ⟨_, hok, rfl, ?_⟩
  intro t hfail hmem
  have := (List.mem_filter.mp hmem).2
  rw [hfail] at this
  exact Bool.false_ne_true this

/-- C5 witness: with topics good and bad where only good subscribes
successfully, the spawn succeeds and the response lists exactly good. -/
theorem SpawnSubAgent_autoSubscribe_bestEffort_witness :
    ∃ resp : SpawnSubAgentResponse,
      (SpawnSubAgent wEmptyState
          (some { wReq with autoSubscribe := ["good", "bad"] })
          { wExt with subscribeOk := fun t => t == "good" }).2 =
        Except.ok resp ∧
      resp.subscribedTopics =
        ["good", "bad"].filter (fun t => t == "good") ∧
      ∀ t : String, (t == "good") = false →
        t ∉ resp.subscribedTopics :=
  SpawnSubAgent_autoSubscribe_bestEffort wEmptyState
    { wReq with autoSubscribe := ["good", "bad"] }
    { wExt with subscribeOk := fun t => t == "good" }
    (by decide) (by decide) (by decide) (by decide) (by decide) (by decide)
    (by decide) (by decide)

/-- C9: every successful `SpawnSubAgent` call reports status
"spawned"; the other status values the response type documents are never
produced, failures being returned through the error value instead. -/
theorem SpawnSubAgent_status_spawned (st : ServerState)
    (req : Option SpawnSubAgentRequest) (ext : SpawnExt)
    (resp : SpawnSubAgentResponse)
    (h : (SpawnSubAgent st req ext).2 = Except.ok resp) :
    resp.status = "spawned" := by
  cases req with
  | none => simp [SpawnSubAgent] at h
  | some req =>
    simp only [SpawnSubAgent] at h
    split_ifs at h
    all_goals
      first
        | exact Except.noConfusion h
        | exact (Except.ok.inj h) ▸ rfl

/-- C9 witness: a concrete successful spawn returns status
"spawned". -/
theorem SpawnSubAgent_status_spawned_witness :
    (SpawnSubAgentResponse.mk "child" "sid9" "spawned" []).status =
      "spawned" :=
  SpawnSubAgent_status_spawned wEmptyState (some wReq) wExt
    (SpawnSubAgentResponse.mk "child" "sid9" "spawned" []) (by rfl)

/-- After any `cleanupSpawnedAgent` call, the cleaned session id is no
longer in the spawn table. -/
theorem cleanup_find_none (st : ServerState) (sessionID reason : String) :
    (cleanupSpawnedAgent st sessionID reason).spawnedAgents.find?
      (fun e => e.1 = sessionID) = none := by
  unfold cleanupSpawnedAgent
  cases hfind : st.spawnedAgents.find? (fun e => e.1 = sessionID) with
  | none => exact hfind
  | some entry =>
    by_cases hb : st.busAvailable
    · simp only [hb, if_true]
      rw [List.find?_eq_none]
      intro x hx
      have := (List.mem_filter.mp hx).2
      simpa using this
    · simp only [hb, if_false]
      rw [List.find?_eq_none]
      intro x hx
      have := (List.mem_filter.mp hx).2
      simpa using this

/-- C10: `cleanupSpawnedAgent` is idempotent: cleaning a session id that
is not in the spawn table leaves the whole server state unchanged (no
cancellation, no unsubscription), so a second cleanup of the same id,
with any reason, is a no-op. -/
theorem cleanupSpawnedAgent_idempotent (st : ServerState)
    (sessionID r1 r2 : String) :
    (st.spawnedAgents.find? (fun e => e.1 = sessionID) = none →
      cleanupSpawnedAgent st sessionID r1 = st) ∧
    cleanupSpawnedAgent (cleanupSpawnedAgent st sessionID r1) sessionID r2 =
      cleanupSpawnedAgent st sessionID r1 := by
  constructor
  · intro hnone
    unfold cleanupSpawnedAgent
    rw [hnone]
  · have hnone := cleanup_find_none st sessionID r1
    conv_lhs => rw [cleanupSpawnedAgent]
    rw [hnone]

/-- C10 witness: a second cleanup of session s0 is a no-op, and cleaning
an untracked id on the empty state changes nothing. -/
theorem cleanupSpawnedAgent_idempotent_witness :
    cleanupSpawnedAgent (cleanupSpawnedAgent wFullState "s0" "r1")
        "s0" "r2" =
      cleanupSpawnedAgent wFullState "s0" "r1" ∧
    cleanupSpawnedAgent wEmptyState "x" "r" = wEmptyState :=
  ⟨(cleanupSpawnedAgent_idempotent wFullState "s0" "r1" "r2").2,
    (cleanupSpawnedAgent_idempotent wEmptyState "x" "r" "r").1 (by decide)⟩

/-- Both branches of `wrapSpawnResult` return a nil Go error, record the
issued request, and on failure carry the structured retryable
SPAWN_FAILED error. -/
theorem wrapSpawnResult_spec (st' : ServerState)
    (req : SpawnSubAgentRequest)
    (r : Except SpawnError SpawnSubAgentResponse) :
    (wrapSpawnResult st' req r).goError = none ∧
    (wrapSpawnResult st' req r).issuedRequest = some req ∧
    ((wrapSpawnResult st' req r).result.success = false →
      (wrapSpawnResult st' req r).result.error =
        some { code := "SPAWN_FAILED", message := "Failed to spawn agent"
               suggestion := "Check if agent config exists and server has capacity"
               retryable := true }) := by
  cases r with
  | error e => exact ⟨rfl, rfl, fun _ => rfl⟩
  | ok resp =>
    exact ⟨rfl, rfl, fun hfalse => absurd hfalse (by simp [wrapSpawnResult])⟩

/-- C4: `SpawnAgentTool.Execute` always returns a nil Go error; every
failed result carries a structured error; a missing handler yields the
SPAWN_NOT_AVAILABLE failure without a spawn; an absent or empty or
non-string `agent_id` yields a failed result without a spawn; and a
handler failure is reported as the retryable SPAWN_FAILED structured
error. -/
theorem SpawnAgentToolExecute_structured (handlerAvailable : Bool)
    (parentSession parentAgentID : String) (st : ServerState)
    (ext : SpawnExt) (params : List (String × ParamValue)) :
    (SpawnAgentToolExecute handlerAvailable parentSession parentAgentID
        st ext params).goError = none ∧
    ((SpawnAgentToolExecute handlerAvailable parentSession parentAgentID
        st ext params).result.success = false →
      ∃ e : ShuttleError,
        (SpawnAgentToolExecute handlerAvailable parentSession parentAgentID
          st ext params).result.error = some e) ∧
    (handlerAvailable = false →
      (SpawnAgentToolExecute handlerAvailable parentSession parentAgentID
          st ext params).result.success = false ∧
      (SpawnAgentToolExecute handlerAvailable parentSession parentAgentID
          st ext params).issuedRequest = none ∧
      ∃ e : ShuttleError,
        (SpawnAgentToolExecute handlerAvailable parentSession parentAgentID
            st ext params).result.error = some e ∧
        e.code = "SPAWN_NOT_AVAILABLE") ∧
    ((asString (getParam params "agent_id") = none ∨
      asString (getParam params "agent_id") = some "") →
      (SpawnAgentToolExecute handlerAvailable parentSession parentAgentID
          st ext params).result.success = false ∧
      (SpawnAgentToolExecute handlerAvailable parentSession parentAgentID
          st ext params).issuedRequest = none) ∧
    (∀ req : SpawnSubAgentRequest,
      (SpawnAgentToolExecute handlerAvailable parentSession parentAgentID
          st ext params).issuedRequest = some req →
      (SpawnAgentToolExecute handlerAvailable parentSession parentAgentID
          st ext params).result.success = false →
      ∃ e : ShuttleError,
        (SpawnAgentToolExecute handlerAvailable parentSession parentAgentID
            st ext params).result.error = some e ∧
        e.code = "SPAWN_FAILED" ∧ e.retryable = true) := by
  cases handlerAvailable with
  | false =>
    refine ⟨rfl, fun _ => ⟨_, rfl⟩, fun _ => ⟨rfl, rfl, ⟨_, rfl, rfl⟩⟩,
      fun _ => ⟨rfl, rfl⟩, fun req hreq _ => ?_⟩
    exact Option.noConfusion hreq
  | true =>
    cases hag : asString (getParam params "agent_id") with
    | none =>
      have hred : SpawnAgentToolExecute true parentSession parentAgentID
          st ext params =
          { result :=
              { success := false
                error := some
                  { code := "INVALID_AGENT_ID"
                    message := "agent_id must be a non-empty string"
                    suggestion := "Provide agent_id like a fighter or analyst id"
                    retryable := false }
                data := none }
            goError := none
            state := st
            issuedRequest := none } := by
        simp [SpawnAgentToolExecute, hag]
      rw [hred]
      refine ⟨rfl, fun _ => ⟨_, rfl⟩, fun hfalse => Bool.noConfusion hfalse,
        fun _ => ⟨rfl, rfl⟩, fun req hreq _ => Option.noConfusion hreq⟩
    | some a =>
      by_cases hae : a = ""
      · have hred : SpawnAgentToolExecute true parentSession parentAgentID
            st ext params =
            { result :=
                { success := false
                  error := some
                    { code := "INVALID_AGENT_ID"
                      message := "agent_id must be a non-empty string"
                      suggestion := "Provide agent_id like a fighter or analyst id"
                      retryable := false }
                  data := none }
              goError := none
              state := st
              issuedRequest := none } := by
          simp [SpawnAgentToolExecute, hag, hae]
        rw [hred]
        refine ⟨rfl, fun _ => ⟨_, rfl⟩, fun hfalse => Bool.noConfusion hfalse,
          fun _ => ⟨rfl, rfl⟩, fun req hreq _ => Option.noConfusion hreq⟩
      · have hred : SpawnAgentToolExecute true parentSession parentAgentID
            st ext params =
            wrapSpawnResult
              (SpawnSubAgent st
                (some (buildSpawnRequest parentSession parentAgentID a params))
                ext).1
              (buildSpawnRequest parentSession parentAgentID a params)
              (SpawnSubAgent st
                (some (buildSpawnRequest parentSession parentAgentID a params))
                ext).2 := by
          simp [SpawnAgentToolExecute, hag, hae]
        rw [hred]
        obtain ⟨hg, hir, herr⟩ := wrapSpawnResult_spec
          (SpawnSubAgent st
            (some (buildSpawnRequest parentSession parentAgentID a params))
            ext).1
          (buildSpawnRequest parentSession parentAgentID a params)
          (SpawnSubAgent st
            (some (buildSpawnRequest parentSession parentAgentID a params))
            ext).2
        refine ⟨hg, fun hf => ⟨_, herr hf⟩,
          fun hfalse => Bool.noConfusion hfalse, fun hbad => ?_,
          fun req hreq hf => ⟨_, herr hf, rfl, rfl⟩⟩
        rcases hbad with hnone | hempty
        · exact Option.noConfusion hnone
        · exact absurd (Option.some.inj hempty) hae

/-- C4 witness: with the handler available and no agent_id parameter,
the call yields a failed result and no spawn request is issued. -/
theorem SpawnAgentToolExecute_structured_witness :
    (SpawnAgentToolExecute true "ps" "pa" wEmptyState wExt
        []).result.success = false ∧
    (SpawnAgentToolExecute true "ps" "pa" wEmptyState wExt
        []).issuedRequest = none :=
  (SpawnAgentToolExecute_structured true "ps" "pa" wEmptyState wExt
    []).2.2.2.1 (Or.inl rfl)

/-- A string starting with a slash still starts with a slash after any
append. -/
theorem isAbs_append (a b : String) (h : isAbs a = true) :
    isAbs (a ++ b) = true := by
  cases a with
  | mk da =>
    cases b with
    | mk db =>
      cases da with
      | nil => exact absurd h (by simp [isAbs])
      | cons c t => exact h

/-- `filepath.Clean` preserves absoluteness. -/
theorem filepathClean_isAbs (p : String) (h : isAbs p = true) :
    isAbs (filepathClean p) = true := by
  have hcl : filepathClean p =
      (match ((p.splitOn "/").foldl (cleanStep true) []).reverse with
       | [] => "/"
       | s => "/" ++ stringsJoin "/" s) := by
    simp [filepathClean, h]
  rw [hcl]
  cases hl : ((p.splitOn "/").foldl (cleanStep true) []).reverse with
  | nil => rfl
  | cons x xs => exact isAbs_append "/" _ rfl

/-- C7: `GetLoomDataDir` returns the home directory joined with .loom
when `LOOM_DATA_DIR` is unset or empty; a set value with a leading
tilde-slash is expanded onto the home directory; a set absolute value is
returned (cleaned); and any other set value is normalized to an absolute
path (given an absolute working directory). -/
theorem GetLoomDataDir_spec (env home cwd : String)
    (hcwd : isAbs cwd = true) :
    (GetLoomDataDir "" (some home) cwd = filepathJoin [home, ".loom"]) ∧
    (¬ env = "" → hasTildeSlash env = true →
      GetLoomDataDir env (some home) cwd = filepathJoin [home, env.drop 2]) ∧
    (¬ env = "" → hasTildeSlash env = false → isAbs env = true →
      GetLoomDataDir env (some home) cwd = filepathClean env) ∧
    (¬ env = "" → hasTildeSlash env = false →
      isAbs (GetLoomDataDir env (some home) cwd) = true) := by
  refine ⟨rfl, ?_, ?_, ?_⟩
  · intro henv ht
    simp [GetLoomDataDir, henv, expandPath, ht]
  · intro henv ht habs
    simp [GetLoomDataDir, henv, expandPath, ht, filepathAbs, habs]
  · intro henv ht
    have hpath : GetLoomDataDir env (some home) cwd = filepathAbs cwd env := by
      simp [GetLoomDataDir, henv, expandPath, ht]
    rw [hpath]
    unfold filepathAbs
    by_cases habs : isAbs env = true
    · rw [if_pos habs]
      exact filepathClean_isAbs env habs
    · rw [if_neg habs]
      have hcne : ¬ cwd = "" := by
        intro hc
        rw [hc] at hcwd
        exact absurd hcwd (by decide)
      have hfil : ([cwd, env].filter (fun e => ¬ e = "")) = [cwd, env] := by
        simp [hcne, henv]
      unfold filepathJoin
      rw [hfil]
      exact filepathClean_isAbs _ (isAbs_append _ _ (isAbs_append _ _ hcwd))

/-- C7 witness: a relative LOOM_DATA_DIR is normalized to an absolute
path. -/
theorem GetLoomDataDir_spec_witness :
    isAbs (GetLoomDataDir "rel" (some "/home/u") "/cwd") = true :=
  (GetLoomDataDir_spec "rel" "/home/u" "/cwd" rfl).2.2.2 (by decide) rfl

/-- C6: in every state reachable under the modelled acquire / chat /
release discipline, the number of LLM chat calls in flight never exceeds
the semaphore capacity, because every chatting branch holds a slot and
at most `cap` slots are ever held. -/
theorem llmSemaphore_bound (cap : ℕ) (s : SemState)
    (h : SemReachable cap s) : s.chattingN ≤ cap := by
  have hinv : s.holdingN + s.chattingN ≤ cap := by
    induction h with
    | init n => simp
    | step hr hs ih =>
      cases hs <;> dsimp only at ih ⊢ <;> omega
  omega

/-- C6 witness: from two idle branches with capacity 2, after a request,
an acquire and a chat start, the chats in flight stay within the
capacity. -/
theorem llmSemaphore_bound_witness :
    (SemState.mk 1 0 0 1 0).chattingN ≤ 2 :=
  llmSemaphore_bound 2 (SemState.mk 1 0 0 1 0)
    (SemReachable.step
      (SemReachable.step
        (SemReachable.step (SemReachable.init 2)
          (SemStep.request 1 0 0 0 0))
        (SemStep.acquire 1 0 0 0 0 (by omega)))
      (SemStep.beginChat 1 0 0 0 0))

end Loom
